import Mathlib

/-!
Verification of the qa-quiz-agent program (src/qa_quiz_agent.py): a shallow
embedding of its data model and operations, with theorems checking the
specification's claims against the code.
-/

namespace QaQuizAgent

/-- Record of one item of the trivia API response's `results` array
(spec section 6: `question`, `correct_answer`, `incorrect_answers`,
`category`, `difficulty`). -/
structure ApiItem where
  question : String
  correct_answer : String
  incorrect_answers : List String
  category : String
  difficulty : String
deriving Repr, DecidableEq

/-- Normalized question record built by `fetch_questions`
(src/qa_quiz_agent.py lines 45-51). -/
structure Question where
  question : String
  correct : String
  options : List String
  category : String
  difficulty : String
deriving Repr, DecidableEq

/-- Embedding of `fetch_questions` (src/qa_quiz_agent.py lines 25-54).
The HTTP call and JSON decoding are external; the function's own logic is
the loop over `data["results"]`, modelled here by taking the decoded
`results` array as the argument.  For each item it builds a record whose
`options` are `incorrect_answers + [correct_answer]`. -/
def fetch_questions (results : List ApiItem) : List Question :=
  results.map fun item =>
    { question := item.question
      correct := item.correct_answer
      options := item.incorrect_answers ++ [item.correct_answer]
      category := item.category
      difficulty := item.difficulty }

/-- Quiz session state held in `st.session_state`
(src/qa_quiz_agent.py lines 75-80): the fetched questions, the index of the
current question, the accumulated points and the list of given answers. -/
structure QuizState where
  questions : List Question
  current_question : Nat
  points : Nat
  user_answers : List String
deriving Repr, DecidableEq

/-- Initial session state (src/qa_quiz_agent.py lines 75-80): the fetched
questions with index 0, zero points and no recorded answers. -/
def initState (qs : List Question) : QuizState :=
  { questions := qs, current_question := 0, points := 0, user_answers := [] }

/-- State update of the Submit Answer handler
(src/qa_quiz_agent.py lines 130-170): read the current question, add one
point when the choice equals its `correct` field (line 135-137), append the
choice to `user_answers` (line 142), and advance `current_question` by one
(line 169).  The handler only runs inside the `current < total_questions`
branch, so the current index is always in range there; the out-of-range
case returns the state unchanged and is unreachable in the program. -/
def submitAnswer (s : QuizState) (choice : String) : QuizState :=
  match s.questions[s.current_question]? with
  | none => s
  | some q =>
    { s with
      points := s.points + (if choice = q.correct then 1 else 0)
      user_answers := s.user_answers ++ [choice]
      current_question := s.current_question + 1 }

/-- Folding `submitAnswer` over a list of choices: one full quiz run. -/
def submitAll (s : QuizState) (choices : List String) : QuizState :=
  choices.foldl submitAnswer s

/-- State update of the Start New Quiz button
(src/qa_quiz_agent.py lines 193-198): freshly fetched questions, index 0,
zero points, empty answer list. -/
def startNewQuiz (apiResults : List ApiItem) : QuizState :=
  { questions := fetch_questions apiResults
    current_question := 0
    points := 0
    user_answers := [] }

/-- Completion test (src/qa_quiz_agent.py line 109): the COMPLETE branch is
taken exactly when `current < total_questions` fails. -/
def quizComplete (s : QuizState) : Bool :=
  !(s.current_question < s.questions.length)

/-- Percentage computed in the COMPLETE branch
(src/qa_quiz_agent.py line 184): `(score / total_questions) * 100`.
Python raises ZeroDivisionError when `total_questions` is zero, modelled by
`none`. -/
def completePercentage (score total : Nat) : Option ℚ :=
  if total = 0 then none
  else some (((score : ℚ) / (total : ℚ)) * 100)

/-- One record of the persisted quiz history
(src/qa_quiz_agent.py lines 153-158): question text, the user's answer, the
correct answer and the AI explanation. -/
structure HistoryEntry where
  question : String
  your_answer : String
  correct_answer : String
  explanation : String
deriving Repr, DecidableEq

/-- Content of the history file `quiz_log.json` as seen by `json.load`:
either a valid JSON array of history entries or malformed text on which
`json.load` raises. -/
inductive FileContent where
  | valid (entries : List HistoryEntry)
  | invalid
deriving Repr, DecidableEq

/-- Startup load of the history file (src/qa_quiz_agent.py lines 60-66):
when the file is absent (`none`) the in-memory history is the empty list;
when it exists, `json.load` either returns the stored array or raises a
JSONDecodeError (modelled by `Except.error`), which the code does not
catch. -/
def loadHistory : Option FileContent → Except String (List HistoryEntry)
  | none => .ok []
  | some (.valid entries) => .ok entries
  | some .invalid => .error "JSONDecodeError"

/-- History update of the Submit Answer handler
(src/qa_quiz_agent.py lines 153-162): append the new entry to the in-memory
list, then `json.dump` the whole list to the file, overwriting it.  Returns
the new in-memory list and the new file content. -/
def appendHistory (hist : List HistoryEntry) (e : HistoryEntry) :
    List HistoryEntry × Option FileContent :=
  let h := hist ++ [e]
  (h, some (.valid h))

/-- Truthiness of an optional string, as Python's `if not api_key` and
`or` see it: `None` and the empty string are falsy. -/
def truthy : Option String → Bool
  | none => false
  | some s => !(s = "")

/-- Embedding of `api_key = os.environ.get("OPENAI_API_KEY") or
st.secrets.get("OPENAI_API_KEY")` (src/qa_quiz_agent.py line 14): Python's
`or` yields the left operand when it is truthy, otherwise the right one. -/
def api_key (env secrets : Option String) : Option String :=
  if truthy env then env else secrets

/-- Observable startup steps of the script, in source order: the key check
with `st.error`/`st.stop` (lines 17-19) comes before the history-file load
(lines 60-66), which comes before the question fetch of the fresh session
(line 77). -/
inductive Effect where
  | errorMissingKey
  | stop
  | loadHistoryFile
  | fetchQuestionBatch
deriving Repr, DecidableEq

/-- Effect trace of process startup (src/qa_quiz_agent.py lines 14-80):
when the resolved `api_key` is falsy the script shows the error and stops
(`st.stop`) and nothing further runs; otherwise it loads the history file
and, on a fresh session, fetches the question batch. -/
def startupEffects (env secrets : Option String) : List Effect :=
  if truthy (api_key env secrets) then
    [Effect.loadHistoryFile, Effect.fetchQuestionBatch]
  else
    [Effect.errorMissingKey, Effect.stop]

/-- State invariant of the quiz session: the number of recorded answers
equals the current index, and the score never exceeds the number of
questions answered so far. -/
def quizInv (s : QuizState) : Prop :=
  s.user_answers.length = s.current_question ∧ s.points ≤ s.current_question

/-- Concrete question used in witness instantiations. -/
def sampleQuestion : Question :=
  { question := "What is 2+2?"
    correct := "4"
    options := ["3", "5", "22", "4"]
    category := "Math"
    difficulty := "easy" }

/-- Concrete one-question session state used in witness instantiations. -/
def sampleState : QuizState :=
  { questions := [sampleQuestion]
    current_question := 0
    points := 0
    user_answers := [] }

/-- Concrete API result item used in witness instantiations. -/
def sampleApiItem : ApiItem :=
  { question := "What is 2+2?"
    correct_answer := "4"
    incorrect_answers := ["3", "5", "22"]
    category := "Math"
    difficulty := "easy" }

/-- API result item whose `correct_answer` is the empty string; the code
performs no validation, so `fetch_questions` passes it through. -/
def emptyCorrectItem : ApiItem :=
  { question := "q"
    correct_answer := ""
    incorrect_answers := ["a", "b", "c"]
    category := "General"
    difficulty := "easy" }

/-- Claim C1: for every quiz state whose current index is in range (the
current question exists), submitting a choice adds one point exactly when
the choice is string-equal to the current question's `correct` field,
appends the choice to `user_answers`, advances `current_question` by one,
and leaves the `questions` list unchanged. -/
theorem C1_submit_step (s : QuizState) (choice : String) (q : Question)
    (hq : s.questions[s.current_question]? = some q) :
    (submitAnswer s choice).points
      = s.points + (if choice = q.correct then 1 else 0) ∧
    ((submitAnswer s choice).points = s.points + 1 ↔ choice = q.correct) ∧
    (submitAnswer s choice).user_answers = s.user_answers ++ [choice] ∧
    (submitAnswer s choice).current_question = s.current_question + 1 ∧
    (submitAnswer s choice).questions = s.questions := by
  refine ⟨?_, ?_, ?_, ?_, ?_⟩ <;> simp only [submitAnswer, hq]
  by_cases hc : choice = q.correct <;> simp [hc]

/-- Witness for C1: submitting the correct answer on a concrete in-range
state. -/
theorem C1_submit_step_witness :
    sampleState.questions[sampleState.current_question]? = some sampleQuestion ∧
    ((submitAnswer sampleState "4").points
        = sampleState.points + (if "4" = sampleQuestion.correct then 1 else 0) ∧
      ((submitAnswer sampleState "4").points = sampleState.points + 1 ↔
        "4" = sampleQuestion.correct) ∧
      (submitAnswer sampleState "4").user_answers
        = sampleState.user_answers ++ ["4"] ∧
      (submitAnswer sampleState "4").current_question
        = sampleState.current_question + 1 ∧
      (submitAnswer sampleState "4").questions = sampleState.questions) :=
  ⟨rfl, C1_submit_step sampleState "4" sampleQuestion rfl⟩

/-- Claim C2 counterexample: with positive count 1 and an API response whose
`results` field is the empty list, `fetch_questions` returns 0 records, not
1; and with a response containing an item whose `correct_answer` is the
empty string, the returned record's `correct` is empty — the code validates
neither the count nor non-emptiness. -/
theorem C2_fetch_counterexample :
    (fetch_questions ([] : List ApiItem)).length ≠ 1 ∧
    ∃ q ∈ fetch_questions [emptyCorrectItem], q.correct = "" := by
  refine ⟨by simp [fetch_questions], ?_⟩
  exact ⟨_, List.mem_singleton_self _, rfl⟩

/-- Claim C2 (amended): `fetch_questions` returns one record per element of
the response's `results` list (exactly `count` records only when the API
returns `count` results), and every returned record's `correct` answer is
an element of its non-empty `options` list; non-emptiness of the correct
answer itself is not checked. -/
theorem C2_fetch_shape (results : List ApiItem) :
    (fetch_questions results).length = results.length ∧
    ∀ q ∈ fetch_questions results, q.correct ∈ q.options ∧ q.options ≠ [] := by
  refine ⟨by simp [fetch_questions], ?_⟩
  intro q hq
  simp only [fetch_questions, List.mem_map] at hq
  obtain ⟨item, _, rfl⟩ := hq
  constructor
  · simp
  · simp

/-- Witness for C2 (amended): evaluation on a concrete one-item response. -/
theorem C2_fetch_shape_witness :
    (fetch_questions [sampleApiItem]).length = [sampleApiItem].length ∧
    (sampleQuestion.correct ∈ sampleQuestion.options ∧ sampleQuestion.options ≠ []) :=
  ⟨(C2_fetch_shape [sampleApiItem]).1,
    (C2_fetch_shape [sampleApiItem]).2 sampleQuestion (by decide)⟩

/-- Claim C3 counterexample: the fixed fetch count of 5 does not guarantee
a positive question count — when the API response's `results` list is
empty, `fetch_questions` returns no questions, the initial state is already
COMPLETE, and the percentage computation divides by zero (`none`). -/
theorem C3_percentage_counterexample :
    quizComplete (initState (fetch_questions [])) = true ∧
    completePercentage (initState (fetch_questions [])).points
      (initState (fetch_questions [])).questions.length = none := by
  exact ⟨rfl, rfl⟩

/-- Claim C3 (amended): in the COMPLETE state the displayed percentage
equals score divided by the question count times 100 whenever the question
count is positive; positivity is not guaranteed by the fixed fetch count of
5, since `fetch_questions` returns only as many questions as the API's
`results` list contains. -/
theorem C3_percentage_safe (score total : Nat) (h : 0 < total) :
    completePercentage score total
      = some (((score : ℚ) / (total : ℚ)) * 100) := by
  simp [completePercentage, Nat.pos_iff_ne_zero.mp h]

/-- Witness for C3 (amended): evaluation at score 2 of 5. -/
theorem C3_percentage_safe_witness :
    0 < 5 ∧ completePercentage 2 5 = some (((2 : ℚ) / (5 : ℚ)) * 100) :=
  ⟨by decide, C3_percentage_safe 2 5 (by decide)⟩

/-- Claim C4: appending an entry to the history (append to the in-memory
list, then rewrite the whole file) and loading in a fresh process yields a
sequence whose last element is the new entry and whose earlier elements are
the prior entries in their original order. -/
theorem C4_history_roundtrip (hist : List HistoryEntry) (e : HistoryEntry) :
    loadHistory (appendHistory hist e).2 = Except.ok (hist ++ [e]) ∧
    (hist ++ [e]).getLast? = some e ∧
    (hist ++ [e]).dropLast = hist := by
  refine ⟨rfl, ?_, ?_⟩
  · simp
  · simp

/-- Helper: folding `submitAnswer` over a choice list that fits in the
remaining questions preserves the question list, advances the index by the
number of choices, and adds at most one point per choice. -/
theorem submitAll_spec (choices : List String) (s : QuizState)
    (h : s.current_question + choices.length ≤ s.questions.length) :
    (submitAll s choices).questions = s.questions ∧
    (submitAll s choices).current_question
      = s.current_question + choices.length ∧
    (submitAll s choices).points ≤ s.points + choices.length := by
  induction choices generalizing s with
  | nil => simp [submitAll]
  | cons c cs ih =>
    have hlt : s.current_question < s.questions.length := by
      simp only [List.length_cons] at h; omega
    have hq : s.questions[s.current_question]?
        = some (s.questions.get ⟨s.current_question, hlt⟩) := by
      simp [List.getElem?_eq_getElem hlt]
    have hstep : submitAll s (c :: cs) = submitAll (submitAnswer s c) cs := rfl
    have e1 : (submitAnswer s c).questions = s.questions := by
      simp [submitAnswer, hq]
    have e2 : (submitAnswer s c).current_question = s.current_question + 1 := by
      simp [submitAnswer, hq]
    have e3 : (submitAnswer s c).points ≤ s.points + 1 := by
      simp only [submitAnswer, hq]
      split <;> omega
    have h' : (submitAnswer s c).current_question + cs.length
        ≤ (submitAnswer s c).questions.length := by
      rw [e1, e2]
      simp only [List.length_cons] at h
      omega
    obtain ⟨i1, i2, i3⟩ := ih (submitAnswer s c) h'
    refine ⟨by rw [hstep, i1, e1], ?_, ?_⟩
    · rw [hstep, i2, e2, List.length_cons]
      omega
    · rw [hstep]
      calc (submitAll (submitAnswer s c) cs).points
          ≤ (submitAnswer s c).points + cs.length := i3
        _ ≤ s.points + 1 + cs.length := by omega
        _ = s.points + (c :: cs).length := by simp [List.length_cons]; omega

/-- Claim C5: starting from the initial state (index 0, score 0), after
exactly as many submit operations as there are questions, the state is
COMPLETE (index equals the question count) and the score lies between 0 and
the question count. -/
theorem C5_completion (qs : List Question) (choices : List String)
    (h : choices.length = qs.length) :
    (submitAll (initState qs) choices).current_question = qs.length ∧
    0 ≤ (submitAll (initState qs) choices).points ∧
    (submitAll (initState qs) choices).points ≤ qs.length ∧
    quizComplete (submitAll (initState qs) choices) = true := by
  have hs := submitAll_spec choices (initState qs) (by simp [initState, h])
  obtain ⟨i1, i2, i3⟩ := hs
  refine ⟨?_, Nat.zero_le _, ?_, ?_⟩
  · rw [i2]; simp [initState, h]
  · calc (submitAll (initState qs) choices).points
        ≤ (initState qs).points + choices.length := i3
      _ = qs.length := by simp [initState, h]
  · have hlen : (submitAll (initState qs) choices).questions.length = qs.length := by
      rw [i1]; simp [initState]
    have hcur : (submitAll (initState qs) choices).current_question = qs.length := by
      rw [i2]; simp [initState, h]
    simp [quizComplete, hlen, hcur]

/-- Witness for C5: a one-question quiz answered once. -/
theorem C5_completion_witness :
    (["4"] : List String).length = [sampleQuestion].length ∧
    ((submitAll (initState [sampleQuestion]) ["4"]).current_question
        = [sampleQuestion].length ∧
      0 ≤ (submitAll (initState [sampleQuestion]) ["4"]).points ∧
      (submitAll (initState [sampleQuestion]) ["4"]).points
        ≤ [sampleQuestion].length ∧
      quizComplete (submitAll (initState [sampleQuestion]) ["4"]) = true) :=
  ⟨rfl, C5_completion [sampleQuestion] ["4"] rfl⟩

/-- Claim C6: the percentage computed at completion equals score divided by
length times 100 exactly, lies in [0, 100] whenever 0 ≤ score ≤ length, and
the 5-of-5 scenario yields 100 while the 2-of-5 scenario yields 40. -/
theorem C6_percentage_bounds (score total : Nat) (h1 : 0 < total)
    (h2 : score ≤ total) :
    (completePercentage score total
        = some (((score : ℚ) / (total : ℚ)) * 100) ∧
      0 ≤ ((score : ℚ) / (total : ℚ)) * 100 ∧
      ((score : ℚ) / (total : ℚ)) * 100 ≤ 100) ∧
    completePercentage 5 5 = some 100 ∧
    completePercentage 2 5 = some 40 := by
  have ht : (0 : ℚ) < (total : ℚ) := by exact_mod_cast h1
  have hs : (score : ℚ) ≤ (total : ℚ) := by exact_mod_cast h2
  refine ⟨⟨?_, ?_, ?_⟩, ?_, ?_⟩
  · simp [completePercentage, Nat.pos_iff_ne_zero.mp h1]
  · positivity
  · calc ((score : ℚ) / (total : ℚ)) * 100
        ≤ 1 * 100 := by
          apply mul_le_mul_of_nonneg_right ((div_le_one ht).mpr hs)
          norm_num
      _ = 100 := by norm_num
  · norm_num [completePercentage]
  · norm_num [completePercentage]

/-- Witness for C6: evaluation at 2 of 5, where the percentage is 40. -/
theorem C6_percentage_bounds_witness :
    0 < 5 ∧ (2 : Nat) ≤ 5 ∧
    (completePercentage 2 5 = some (((2 : ℚ) / (5 : ℚ)) * 100) ∧
      0 ≤ ((2 : ℚ) / (5 : ℚ)) * 100 ∧ ((2 : ℚ) / (5 : ℚ)) * 100 ≤ 100) :=
  ⟨by decide, by decide, (C6_percentage_bounds 2 5 (by decide) (by decide)).1⟩

/-- Claim C7: loading the history returns the empty sequence when no file
exists, and propagates a JSON decode error when the file exists but is not
valid JSON — a malformed file is never silently read as a history. -/
theorem C7_load_behavior :
    loadHistory none = Except.ok ([] : List HistoryEntry) ∧
    loadHistory (some FileContent.invalid) = Except.error "JSONDecodeError" :=
  ⟨rfl, rfl⟩

/-- Claim C8: when no API key value is available in either the environment
or the Streamlit secrets, startup shows the error and stops before any
other logic (history load, question fetch) runs; when a non-empty key is
available in either place, startup proceeds to the history load and the
question fetch. -/
theorem C8_key_gate (env secrets : Option String) :
    (env = none ∧ secrets = none →
      startupEffects env secrets = [Effect.errorMissingKey, Effect.stop]) ∧
    (truthy env = true ∨ truthy secrets = true →
      startupEffects env secrets
        = [Effect.loadHistoryFile, Effect.fetchQuestionBatch]) := by
  constructor
  · rintro ⟨rfl, rfl⟩
    rfl
  · intro h
    unfold startupEffects api_key
    cases he : truthy env with
    | true => simp [he]
    | false =>
      rcases h with h | h
      · rw [he] at h
        exact absurd h (by simp)
      · simp [he, h]

/-- Witness for C8: both directions at concrete inputs — no key anywhere
halts, a non-empty key in the environment proceeds. -/
theorem C8_key_gate_witness :
    startupEffects none none = [Effect.errorMissingKey, Effect.stop] ∧
    startupEffects (some "sk-test") none
      = [Effect.loadHistoryFile, Effect.fetchQuestionBatch] :=
  ⟨(C8_key_gate none none).1 ⟨rfl, rfl⟩,
    (C8_key_gate (some "sk-test") none).2 (Or.inl (by decide))⟩

/-- Claim C9: every question record returned by `fetch_questions` has its
correct answer as the last element of its `options` list — the options are
the incorrect answers with the correct answer appended, with no
shuffling. -/
theorem C9_correct_is_last (results : List ApiItem) (q : Question)
    (hq : q ∈ fetch_questions results) :
    q.options.getLast? = some q.correct ∧
    q.options = q.options.dropLast ++ [q.correct] := by
  simp only [fetch_questions, List.mem_map] at hq
  obtain ⟨item, _, rfl⟩ := hq
  constructor
  · simp
  · simp

/-- Witness for C9: the correct answer is last in a concrete fetched
record. -/
theorem C9_correct_is_last_witness :
    sampleQuestion ∈ fetch_questions [sampleApiItem] ∧
    (sampleQuestion.options.getLast? = some sampleQuestion.correct ∧
      sampleQuestion.options
        = sampleQuestion.options.dropLast ++ [sampleQuestion.correct]) :=
  ⟨by decide, C9_correct_is_last [sampleApiItem] sampleQuestion (by decide)⟩

/-- Claim C10: the invariant that the number of recorded answers equals the
current index and the score never exceeds the index holds in the initial
state, is preserved by every submit (which, in range, appends exactly one
answer and advances the index by one), and holds after the Start New Quiz
reset. -/
theorem C10_invariant_maintained :
    (∀ qs, quizInv (initState qs)) ∧
    (∀ s c, quizInv s → quizInv (submitAnswer s c)) ∧
    (∀ s c, s.current_question < s.questions.length →
      (submitAnswer s c).user_answers.length = s.user_answers.length + 1 ∧
      (submitAnswer s c).current_question = s.current_question + 1) ∧
    (∀ apiResults, quizInv (startNewQuiz apiResults)) := by
  refine ⟨?_, ?_, ?_, ?_⟩
  · intro qs
    exact ⟨rfl, Nat.le_refl 0⟩
  · rintro s c ⟨h1, h2⟩
    unfold quizInv submitAnswer
    cases hq : s.questions[s.current_question]? with
    | none => exact ⟨h1, h2⟩
    | some q =>
      refine ⟨by simp [h1], ?_⟩
      dsimp only
      split <;> omega
  · intro s c hlt
    have hq : s.questions[s.current_question]?
        = some (s.questions.get ⟨s.current_question, hlt⟩) := by
      simp [List.getElem?_eq_getElem hlt]
    simp [submitAnswer, hq]
  · intro apiResults
    exact ⟨rfl, Nat.le_refl 0⟩

/-- Witness for C10: the invariant on a concrete state and its submit
successor. -/
theorem C10_invariant_maintained_witness :
    quizInv sampleState ∧ quizInv (submitAnswer sampleState "4") :=
  ⟨⟨rfl, Nat.le_refl 0⟩,
    C10_invariant_maintained.2.1 sampleState "4" ⟨rfl, Nat.le_refl 0⟩⟩

end QaQuizAgent
